import Mathlib

/-!
Verification of the Clawvibes annotation toolbar (package export sources).

The definitions below are a shallow embedding of the TypeScript sources:
  * src/types.ts            - shared data model
  * src/api.ts              - REST client result handling
  * src/components/page-toolbar-css (concatenated into index.ts) -
      click capture, drag multi-select, auto-send lifecycle, polling sync,
      persistence effects
  * src/components/review-panel/index.tsx - review actions and polling load
Numbers are embedded as exact rationals, optional TypeScript fields as
Option, and thrown exceptions as an explicit Except/outcome parameter.
Functions of the repository that live in files absent from the source tree
(the storage and element-identification utilities) are modelled from the
specification and marked as such in their doc comments.
-/

set_option autoImplicit false

/-- A bounding box as stored on an annotation record
(src/types.ts, field boundingBox). -/
structure BoundingBox where
  x : ℚ
  y : ℚ
  width : ℚ
  height : ℚ
  deriving DecidableEq, Repr

/-- The central entity of src/types.ts (type Annotation): a committed
annotation record.  Optional TypeScript fields become Option; the status,
remoteId and tokenOwner strings keep their TypeScript string values. -/
structure AnnotationRecord where
  id : String
  x : ℚ := 0
  y : ℚ := 0
  comment : String := ""
  element : String := ""
  elementPath : String := ""
  timestamp : ℤ := 0
  selectedText : Option String := none
  boundingBox : Option BoundingBox := none
  nearbyText : Option String := none
  cssClasses : Option String := none
  nearbyElements : Option String := none
  computedStyles : Option String := none
  fullPath : Option String := none
  accessibility : Option String := none
  isMultiSelect : Option Bool := none
  isFixed : Option Bool := none
  status : Option String := none
  remoteId : Option String := none
  tokenOwner : Option String := none
  imageData : Option String := none
  deriving DecidableEq, Repr

/-- A remote annotation summary fetched from the backend
(src/api.ts, interface AnnotationSummary). -/
structure AnnotationSummary where
  id : String
  status : String
  timestamp : ℤ := 0
  processingStartedAt : Option ℤ := none
  completedAt : Option ℤ := none
  element : String := ""
  comment : String := ""
  x : ℚ := 0
  y : ℚ := 0
  pageUrl : Option String := none
  imageUrl : Option String := none
  commitSha : Option String := none
  tokenOwner : String := ""
  isOwn : Bool := false
  revisionCount : ℕ := 0
  deriving DecidableEq, Repr

/-- The ephemeral pending draft built by handleClick or handleMouseUp
(the pendingAnnotation state of PageFeedbackToolbarCSS). -/
structure PendingAnnotationData where
  x : ℚ
  y : ℚ
  clientY : ℚ
  element : String
  elementPath : String
  selectedText : Option String := none
  boundingBox : Option BoundingBox := none
  nearbyText : Option String := none
  cssClasses : Option String := none
  isMultiSelect : Option Bool := none
  isFixed : Option Bool := none
  fullPath : Option String := none
  accessibility : Option String := none
  computedStyles : Option String := none
  nearbyElements : Option String := none
  deriving DecidableEq, Repr

/-- A DOMRect as returned by getBoundingClientRect, in viewport
coordinates. -/
structure Rect where
  left : ℚ
  top : ℚ
  right : ℚ
  bottom : ℚ
  deriving DecidableEq, Repr

/-- DOMRect width, always right minus left. -/
def Rect.width (r : Rect) : ℚ := r.right - r.left

/-- DOMRect height, always bottom minus top. -/
def Rect.height (r : Rect) : ℚ := r.bottom - r.top

/-- isElementFixed (page-toolbar-css): walks an element and its ancestors
up to (excluding) document.body and reports whether any has computed CSS
position fixed or sticky.  The chain of computed position values, element
first, is the embedded input. -/
def isElementFixed (positions : List String) : Bool :=
  positions.any (fun p => p == "fixed" || p == "sticky")

/-- The element under a click, together with the outputs of the
element-identification utilities applied to it.  The name and path fields
are modelled from the spec: identifyElement (utils/element-identification,
absent from the source tree) produces a best-effort human label and a
structural path; the forensic strings likewise stand for the outputs of
the missing utility functions, passed through unchanged by handleClick. -/
structure ClickTarget where
  name : String
  path : String
  rect : Rect
  positions : List String
  nearbyText : String := ""
  cssClasses : String := ""
  fullPath : String := ""
  accessibility : String := ""
  computedStyles : String := ""
  nearbyElements : String := ""
  deriving DecidableEq, Repr

/-- handleClick (page-toolbar-css): capture of a single-element pending
draft from a plain click at viewport point (clientX, clientY), with the
page scrolled by scrollY and the viewport innerWidth wide.  Mirrors the
setPendingAnnotation call: x is the click position as a percentage of
viewport width, y is document-absolute unless the element chain is
fixed/sticky, and isMultiSelect is left unset. -/
def handleClickPending (el : ClickTarget) (clientX clientY scrollY innerWidth : ℚ)
    (selectedText : Option String) : PendingAnnotationData :=
  let x := clientX / innerWidth * 100
  let fixed := isElementFixed el.positions
  let y := if fixed then clientY else clientY + scrollY
  { x := x
    y := y
    clientY := clientY
    element := el.name
    elementPath := el.path
    selectedText := selectedText
    boundingBox := some
      { x := el.rect.left
        y := if fixed then el.rect.top else el.rect.top + scrollY
        width := el.rect.width
        height := el.rect.height }
    nearbyText := some el.nearbyText
    cssClasses := some el.cssClasses
    isFixed := some fixed
    fullPath := some el.fullPath
    accessibility := some el.accessibility
    computedStyles := some el.computedStyles
    nearbyElements := some el.nearbyElements }

/-- A concrete non-fixed click target: a Submit button whose ancestor
chain uses only static/relative positioning. -/
def submitButtonTarget : ClickTarget :=
  { name := "Submit"
    path := "button"
    rect := { left := 380, top := 280, right := 460, bottom := 320 }
    positions := ["static", "relative", "static"] }

/-- Claim C4: a single click at viewport point (clientX, clientY) yields a
pending draft with x = clientX / viewportWidth * 100; y = clientY + scrollY
and isFixed = false for a non-fixed element, y = clientY and isFixed = true
for a fixed/sticky one; the multi-select flag is left unset (falsy).
Concretely, a click at (400, 300) on a 1000-wide viewport scrolled 200px on
a non-fixed element gives x = 40, y = 500, isFixed = false and a falsy
isMultiSelect. -/
theorem c4_click_coordinates :
    (∀ (el : ClickTarget) (cx cy sy w : ℚ) (sel : Option String),
      (handleClickPending el cx cy sy w sel).x = cx / w * 100 ∧
      (handleClickPending el cx cy sy w sel).isFixed
        = some (isElementFixed el.positions) ∧
      (handleClickPending el cx cy sy w sel).y
        = (if isElementFixed el.positions then cy else cy + sy) ∧
      (handleClickPending el cx cy sy w sel).isMultiSelect = none) ∧
    (handleClickPending submitButtonTarget 400 300 200 1000 none).x = 40 ∧
    (handleClickPending submitButtonTarget 400 300 200 1000 none).y = 500 ∧
    (handleClickPending submitButtonTarget 400 300 200 1000 none).isFixed
      = some false ∧
    ((handleClickPending submitButtonTarget 400 300 200 1000 none).isMultiSelect).getD false
      = false := by
  refine ⟨fun el cx cy sy w sel => ⟨rfl, rfl, rfl, rfl⟩, ?_, ?_, by decide, by decide⟩
  · show (400 : ℚ) / 1000 * 100 = 40
    norm_num
  · show (300 : ℚ) + 200 = 500
    norm_num

/-- Rounding as performed by Math.round on the drag-rectangle coordinates:
round half away from zero upward, i.e. the floor of q + 1/2. -/
def mathRound (q : ℚ) : ℤ := ⌊q + 1 / 2⌋

/-- An element considered by the drag region resolver.  idx is its
identity, ancestors the idx values of its strict DOM ancestors; the
hasText / isInteractive / hasSpecificChild booleans embed the DOM
predicates of the div/span rule; name and the forensic strings stand for
the outputs of the element-identification utilities on this element
(modelled from the spec, utility sources absent). -/
structure DomElement where
  idx : ℕ
  tag : String
  rect : Rect
  inOverlay : Bool := false
  hasText : Bool := false
  isInteractive : Bool := false
  hasSpecificChild : Bool := false
  ancestors : List ℕ := []
  name : String := ""
  nearbyText : String := ""
  cssClasses : String := ""
  fullPath : String := ""
  accessibility : String := ""
  computedStyles : String := ""
  nearbyElements : String := ""
  deriving DecidableEq, Repr

/-- Full containment of the inner rectangle in the outer one, exactly the
four comparisons of the drag-highlight dedup check in handleMouseMove. -/
abbrev rectContains (outer inner : Rect) : Prop :=
  outer.left ≤ inner.left ∧ outer.right ≥ inner.right ∧
  outer.top ≤ inner.top ∧ outer.bottom ≥ inner.bottom

/-- outer DOM-contains inner: outer is a strict DOM ancestor of inner
(Element.contains, with identity handled separately by the caller). -/
abbrev domContains (outer inner : DomElement) : Prop :=
  outer.idx ∈ inner.ancestors

/-- The meaningful tag set of the throttled drag-highlight pass
(handleMouseMove). -/
def meaningfulTags : List String :=
  ["BUTTON", "A", "INPUT", "IMG", "P", "H1", "H2", "H3", "H4", "H5", "H6",
   "LI", "LABEL", "TD", "TH", "SECTION", "ARTICLE", "ASIDE", "NAV"]

/-- One iteration of the candidate loop of the throttled drag-highlight
pass (handleMouseMove): overlay exclusion, page-level and noise size
filters, intersection test, tag/div-span inclusion rule, then the
containment check against the already collected rectangles - a candidate
whose rectangle is fully enclosed by an existing match is not pushed. -/
def highlightStep (ww wh l t r b : ℚ) (acc : List Rect) (el : DomElement) : List Rect :=
  if el.inOverlay then acc
  else if el.rect.width > ww * 0.8 ∧ el.rect.height > wh * 0.5 then acc
  else if el.rect.width < 10 ∨ el.rect.height < 10 then acc
  else if el.rect.left < r ∧ el.rect.right > l ∧ el.rect.top < b ∧ el.rect.bottom > t then
    if el.tag ∈ meaningfulTags ∨
        ((el.tag = "DIV" ∨ el.tag = "SPAN") ∧ (el.hasText ∨ el.isInteractive) ∧
          ¬ el.hasSpecificChild) then
      if acc.any (fun ex => decide (rectContains ex el.rect)) then acc
      else acc ++ [el.rect]
    else acc
  else acc

/-- The throttled drag-highlight pass of handleMouseMove: fold the
candidate loop over the candidate elements in document sampling order,
collecting the highlight rectangles. -/
def highlightPass (els : List DomElement) (ww wh l t r b : ℚ) : List Rect :=
  els.foldl (highlightStep ww wh l t r b) []

/-- The selector tag list of the final pointer-up pass (handleMouseUp):
button, a, input, img, p, h1-h6, li, label, td, th. -/
def mouseupSelectorTags : List String :=
  ["BUTTON", "A", "INPUT", "IMG", "P", "H1", "H2", "H3", "H4", "H5", "H6",
   "LI", "LABEL", "TD", "TH"]

/-- allMatching of handleMouseUp: elements of the selector tag list that
are outside the overlay, not page-level containers, not noise-sized, and
whose rectangle intersects the drag rectangle. -/
def mouseupMatches (els : List DomElement) (ww wh l t r b : ℚ) : List DomElement :=
  els.filter (fun el => decide (
    el.tag ∈ mouseupSelectorTags ∧
    ¬ el.inOverlay ∧
    ¬ (el.rect.width > ww * 0.8 ∧ el.rect.height > wh * 0.5) ∧
    ¬ (el.rect.width < 10 ∨ el.rect.height < 10) ∧
    (el.rect.left < r ∧ el.rect.right > l ∧ el.rect.top < b ∧ el.rect.bottom > t)))

/-- finalElements of handleMouseUp: drop every matched element that
DOM-contains another matched element (keep the most specific ones). -/
def finalElementsOf (els : List DomElement) (ww wh l t r b : ℚ) : List DomElement :=
  let m := mouseupMatches els ww wh l t r b
  m.filter (fun el => decide (¬ ∃ other ∈ m, other.idx ≠ el.idx ∧ domContains el other))

/-- The bounds reduction of handleMouseUp over the final element
rectangles.  The source folds with an Infinity-initialised accumulator
over the whole list, which on a non-empty list equals folding from the
first rectangle. -/
def unionBounds (first : Rect) (rest : List DomElement) : Rect :=
  rest.foldl
    (fun acc e =>
      { left := min acc.left e.rect.left
        top := min acc.top e.rect.top
        right := max acc.right e.rect.right
        bottom := max acc.bottom e.rect.bottom })
    first

/-- The element label of a multi-element annotation: count, first five
names, and a more-suffix past five elements (handleMouseUp). -/
def multiSelectLabel (finalElements : List DomElement) : String :=
  let names := String.intercalate ", " ((finalElements.take 5).map (fun e => e.name))
  let more := if finalElements.length > 5
    then " +" ++ toString (finalElements.length - 5) ++ " more" else ""
  toString finalElements.length ++ " elements: " ++ names ++ more

/-- handleMouseUp after a drag from (dragStartX, dragStartY) to
(clientX, clientY): resolve the final element set; with elements, build a
multi-select draft with the multi-select sentinel path and union bounds;
with none, build an area draft only when the rectangle strictly exceeds
20x20, labelled Area selection with a region-coordinate path.  Returns
none when no draft is created. -/
def handleMouseUpResult (els : List DomElement)
    (dragStartX dragStartY clientX clientY scrollY ww wh : ℚ) :
    Option PendingAnnotationData :=
  let left := min dragStartX clientX
  let top := min dragStartY clientY
  let right := max dragStartX clientX
  let bottom := max dragStartY clientY
  let x := clientX / ww * 100
  let y := clientY + scrollY
  match finalElementsOf els ww wh left top right bottom with
  | [] =>
    let width := |right - left|
    let height := |bottom - top|
    if width > 20 ∧ height > 20 then
      some { x := x
             y := y
             clientY := clientY
             element := "Area selection"
             elementPath := "region at (" ++ toString (mathRound left) ++ ", "
               ++ toString (mathRound top) ++ ")"
             boundingBox := some
               { x := left, y := top + scrollY, width := width, height := height }
             isMultiSelect := some true }
    else none
  | first :: rest =>
    let bounds := unionBounds first.rect rest
    some { x := x
           y := y
           clientY := clientY
           element := multiSelectLabel (first :: rest)
           elementPath := "multi-select"
           boundingBox := some
             { x := bounds.left, y := bounds.top + scrollY
               width := bounds.right - bounds.left
               height := bounds.bottom - bounds.top }
           isMultiSelect := some true
           fullPath := some first.fullPath
           accessibility := some first.accessibility
           computedStyles := some first.computedStyles
           nearbyElements := some first.nearbyElements
           cssClasses := some first.cssClasses
           nearbyText := some first.nearbyText }

/-- A per-item send result as returned by the onSend callback / the batch
submit (src/types.ts, type SendResult). -/
structure SendResultRec where
  id : String
  remoteId : String
  success : Bool
  error : Option String := none
  deriving DecidableEq, Repr

/-- How an onSend call ends: the promise resolves with a result list, or
it rejects (the thrown case handled by the catch branch). -/
inductive SendOutcome where
  | resolved (results : List SendResultRec)
  | thrown
  deriving DecidableEq, Repr

/-- The toolbar state the auto-send lifecycle touches: the annotation list
and the keys of autoSendTimersRef (ids with an armed timer). -/
structure ToolbarState where
  annotations : List AnnotationRecord
  timers : List String := []
  deriving DecidableEq, Repr

/-- startAutoSend (page-toolbar-css): in API mode with an onSend callback,
arm a 10 second timer for the annotation id unless one is already armed;
otherwise do nothing. -/
def startAutoSend (apiMode hasOnSend : Bool) (annotationId : String)
    (s : ToolbarState) : ToolbarState :=
  if apiMode = true ∧ hasOnSend = true then
    if annotationId ∈ s.timers then s
    else { s with timers := s.timers ++ [annotationId] }
  else s

/-- The body of the auto-send timer of startAutoSend, run when the timer
fires, together with the completion of the onSend promise: drop the timer
key; look the annotation up in the current list; when it is still in
draft (or has no status), call onSend with it, optimistically mark it
pending, then apply the completion - on a resolved promise the first
result decides pending (with its remoteId recorded) versus failed, and a
rejected promise marks it failed.  The second component is the payload
passed to onSend, none when no send happens. -/
def autoSendFire (outcome : SendOutcome) (annotationId : String)
    (s : ToolbarState) : ToolbarState × Option (List AnnotationRecord) :=
  let timers := s.timers.erase annotationId
  match s.annotations.find? (fun a => decide (a.id = annotationId)) with
  | some a =>
    if a.status = none ∨ a.status = some "draft" then
      let optimistic := s.annotations.map (fun b =>
        if b.id = annotationId then { b with status := some "pending" } else b)
      let final :=
        match outcome with
        | .resolved results =>
          optimistic.map (fun b =>
            if b.id = annotationId then
              { b with
                status := some (if (results.head?.map (fun r => r.success)).getD false
                  then "pending" else "failed")
                remoteId := results.head?.map (fun r => r.remoteId) }
            else b)
        | .thrown =>
          optimistic.map (fun b =>
            if b.id = annotationId then { b with status := some "failed" } else b)
      ({ annotations := final, timers := timers }, some [a])
    else ({ s with timers := timers }, none)
  | none => ({ s with timers := timers }, none)

/-- deleteAnnotation (page-toolbar-css), after its exit animation: the
annotation is filtered out of the list.  The armed auto-send timer map is
not touched by deletion. -/
def deleteAnnotationOp (annotationId : String) (s : ToolbarState) : ToolbarState :=
  { s with annotations := s.annotations.filter (fun a => decide (a.id ≠ annotationId)) }

/-- The per-annotation body of syncLocalAnnotations (page-toolbar-css):
an annotation with a remoteId matched by a fetched summary whose status or
tokenOwner differs gets both fields overwritten and is reported to
onStatusChange; otherwise it is returned unchanged with no callback.  The
second component is the onStatusChange payload. -/
def syncOne (fetched : List AnnotationSummary) (a : AnnotationRecord) :
    AnnotationRecord × Option AnnotationRecord :=
  match a.remoteId with
  | none => (a, none)
  | some rid =>
    match fetched.find? (fun r => decide (r.id = rid)) with
    | none => (a, none)
    | some remote =>
      if a.status ≠ some remote.status ∨ a.tokenOwner ≠ some remote.tokenOwner then
        let updated := { a with
          status := some remote.status
          tokenOwner := some remote.tokenOwner }
        (updated, some updated)
      else (a, none)

/-- syncLocalAnnotations (page-toolbar-css): map the reconciliation over
the local list; the second component lists the onStatusChange callback
payloads, one per changed annotation, in list order. -/
def syncLocalAnnotations (anns : List AnnotationRecord)
    (fetched : List AnnotationSummary) :
    List AnnotationRecord × List AnnotationRecord :=
  (anns.map (fun a => (syncOne fetched a).1),
   anns.filterMap (fun a => (syncOne fetched a).2))

/-- How a fetch of the annotation list ends (src/api.ts fetchAnnotations):
the request resolves with an ok flag and a parsed body, or it throws. -/
inductive FetchOutcome where
  | resolved (resOk : Bool) (data : List AnnotationSummary)
  | netError (msg : String)
  deriving DecidableEq, Repr

/-- fetchAnnotations (src/api.ts): a non-ok response throws, and every
throw is caught and turned into the empty list. -/
def fetchAnnotationsResult : FetchOutcome → List AnnotationSummary
  | .resolved true data => data
  | .resolved false _ => []
  | .netError _ => []

/-- Stable insertion of a summary into a list sorted by descending
timestamp (placed after earlier entries with the same timestamp). -/
def insertDescByTs (a : AnnotationSummary) :
    List AnnotationSummary → List AnnotationSummary
  | [] => [a]
  | b :: bs => if a.timestamp > b.timestamp then a :: b :: bs
    else b :: insertDescByTs a bs

/-- The sort of loadAnnotations in the review panel:
data.sort by descending timestamp, embedded as a stable insertion sort. -/
def sortDescByTs (l : List AnnotationSummary) : List AnnotationSummary :=
  l.foldr insertDescByTs []

/-- loadAnnotations (review-panel): fetch, sort by newest first, and
replace the displayed list with the result.  The previously displayed
list is not an input: setAnnotations overwrites it. -/
def panelLoadDisplayed (outcome : FetchOutcome) : List AnnotationSummary :=
  sortDescByTs (fetchAnnotationsResult outcome)

/-- The parsed body of the submit endpoint response
(src/api.ts submitAnnotation return type). -/
structure SubmitResponse where
  success : Bool
  id : Option String := none
  error : Option String := none
  deriving DecidableEq, Repr

/-- The result of a review action call (src/api.ts, interface
ActionResult). -/
structure ActionResult where
  success : Bool
  status : Option String := none
  error : Option String := none
  revisionCount : Option ℕ := none
  deriving DecidableEq, Repr

/-- submitAnnotation (src/api.ts): return the parsed response body; any
throw is caught and becomes a success-false result carrying the error
text. -/
def submitAnnotationResult : Except String SubmitResponse → SubmitResponse
  | .ok r => r
  | .error e => { success := false, error := some e }

/-- The parsed body of one batch-submit response
(src/api.ts submitAnnotations, fields data.id / data.success /
data.error). -/
structure SubmitBatchData where
  id : Option String := none
  success : Bool
  error : Option String := none
  deriving DecidableEq, Repr

/-- submitAnnotations (src/api.ts): one request per annotation id; a
parsed body maps to a send result with remoteId data.id-or-empty, and a
throw is caught per item, yielding success false with the error text. -/
def submitAnnotationsResult (items : List (String × Except String SubmitBatchData)) :
    List SendResultRec :=
  items.map (fun p =>
    match p.2 with
    | .ok d => { id := p.1, remoteId := d.id.getD "", success := d.success, error := d.error }
    | .error e => { id := p.1, remoteId := "", success := false, error := some e })

/-- fetchAnnotation (src/api.ts): a non-ok response returns null, and any
throw is caught and returns null. -/
def fetchAnnotationResult : Except String (Bool × AnnotationSummary) → Option AnnotationSummary
  | .ok (true, s) => some s
  | .ok (false, _) => none
  | .error _ => none

/-- approveAnnotation (src/api.ts): parsed body on success, and any throw
caught into a success-false result with the error text. -/
def approveAnnotationResult : Except String ActionResult → ActionResult
  | .ok r => r
  | .error e => { success := false, error := some e }

/-- rejectAnnotation (src/api.ts): parsed body on success, and any throw
caught into a success-false result with the error text. -/
def rejectAnnotationResult : Except String ActionResult → ActionResult
  | .ok r => r
  | .error e => { success := false, error := some e }

/-- reviseAnnotation (src/api.ts): parsed body on success, and any throw
caught into a success-false result with the error text. -/
def reviseAnnotationResult : Except String ActionResult → ActionResult
  | .ok r => r
  | .error e => { success := false, error := some e }

/-- cancelAnnotation (src/api.ts): success true when the response is ok, a
fixed failure message when it is not, and any throw caught into a
success-false result with the error text. -/
def cancelAnnotationResult : Except String Bool → ActionResult
  | .ok true => { success := true }
  | .ok false => { success := false, error := some "Failed to cancel" }
  | .error e => { success := false, error := some e }

/-- getActions (review-panel): the per-summary action list, switching on
the summary status, with cancel / approve-edit-reject restricted to the
owner or an admin token. -/
def getActions (isAdmin : Bool) (a : AnnotationSummary) : List String :=
  let canManage := a.isOwn || isAdmin
  if a.status = "pending" then
    (if canManage then ["cancel", "hide"] else ["hide"])
  else if a.status = "processing" then ["hide"]
  else if a.status = "implemented" then
    (if canManage then ["approve", "edit", "reject"] else ["hide"])
  else if a.status = "approved" ∨ a.status = "completed" ∨ a.status = "rejected"
      ∨ a.status = "failed" ∨ a.status = "interrupted" then ["hide"]
  else if a.status = "revision_requested" then ["hide"]
  else ["hide"]

/-- Modelled from the spec: getStorageKey (utils/storage, absent from the
source tree) derives the per-page persistence key from the current path. -/
def getStorageKey (path : String) : String := "clawvibes:" ++ path

/-- Modelled from the spec: the browser-local key-value store holding,
per storage key, a serialized array of annotation records (serialization
abstracted as the record list itself, since the storage utility source is
absent). -/
def KVStore : Type := List (String × List AnnotationRecord)

/-- Write a value under a key, replacing any previous entry. -/
def kvPut (k : String) (v : List AnnotationRecord) (s : KVStore) : KVStore :=
  (k, v) :: s.filter (fun p => decide (p.1 ≠ k))

/-- Remove a key (localStorage.removeItem). -/
def kvRemove (k : String) (s : KVStore) : KVStore :=
  s.filter (fun p => decide (p.1 ≠ k))

/-- Read a key, none when absent. -/
def kvGet (k : String) (s : KVStore) : Option (List AnnotationRecord) :=
  (s.find? (fun p => decide (p.1 = k))).map (fun p => p.2)

/-- Modelled from the spec: saveAnnotations (utils/storage, absent from
the source tree) writes the annotation array under the page key. -/
def saveAnnotations (path : String) (anns : List AnnotationRecord) (s : KVStore) : KVStore :=
  kvPut (getStorageKey path) anns s

/-- Modelled from the spec: loadAnnotations (utils/storage, absent from
the source tree) reads the array under the page key; absence of data
means no annotations. -/
def loadAnnotationsFromStore (path : String) (s : KVStore) : List AnnotationRecord :=
  (kvGet (getStorageKey path) s).getD []

/-- The save-annotations effect of PageFeedbackToolbarCSS (mounted): a
non-empty list is saved under the page key, and an empty list removes the
key instead. -/
def persistEffect (path : String) (anns : List AnnotationRecord) (s : KVStore) : KVStore :=
  if anns.length > 0 then saveAnnotations path anns s
  else kvRemove (getStorageKey path) s

/-- Looking a key up after filtering that key out finds nothing. -/
theorem find_eq_none_after_filter_ne {α : Type} (key : α → String) (k : String) :
    ∀ (l : List α),
      ((l.filter (fun a => decide (key a ≠ k))).find? (fun a => decide (key a = k))) = none := by
  intro l
  induction l with
  | nil => rfl
  | cons a tl ih =>
    by_cases h : key a = k
    · simp only [List.filter_cons]
      simp [h, ih]
    · simp only [List.filter_cons]
      simp [h, ih]

/-- A demo annotation committed in API mode, still in draft status. -/
def demoDraft : AnnotationRecord := { id := "a1", status := some "draft" }

/-- A demo toolbar state holding the draft with its auto-send timer armed. -/
def demoToolbar : ToolbarState := { annotations := [demoDraft], timers := ["a1"] }

/-- Claim C1: when the auto-send timer of an annotation fires while it is
still in draft (or has no status), the annotation is sent via the
configured send operation; a successful send result leaves it pending
with the server remoteId recorded, a failed result or a thrown send
leaves it failed; and an annotation deleted before the timer fires is
never sent - the fire is a no-op on the remaining annotations. -/
theorem c1_auto_send_lifecycle :
    (∀ (s : ToolbarState) (annotationId : String) (a : AnnotationRecord)
        (results : List SendResultRec) (res : SendResultRec),
      s.annotations.find? (fun b => decide (b.id = annotationId)) = some a →
      (a.status = none ∨ a.status = some "draft") →
      results.head? = some res → res.success = true →
      autoSendFire (SendOutcome.resolved results) annotationId s =
        ({ annotations := s.annotations.map (fun b =>
             if b.id = annotationId then
               { b with status := some "pending", remoteId := some res.remoteId }
             else b)
           timers := s.timers.erase annotationId }, some [a])) ∧
    (∀ (s : ToolbarState) (annotationId : String) (a : AnnotationRecord)
        (results : List SendResultRec) (res : SendResultRec),
      s.annotations.find? (fun b => decide (b.id = annotationId)) = some a →
      (a.status = none ∨ a.status = some "draft") →
      results.head? = some res → res.success = false →
      autoSendFire (SendOutcome.resolved results) annotationId s =
        ({ annotations := s.annotations.map (fun b =>
             if b.id = annotationId then
               { b with status := some "failed", remoteId := some res.remoteId }
             else b)
           timers := s.timers.erase annotationId }, some [a])) ∧
    (∀ (s : ToolbarState) (annotationId : String) (a : AnnotationRecord),
      s.annotations.find? (fun b => decide (b.id = annotationId)) = some a →
      (a.status = none ∨ a.status = some "draft") →
      autoSendFire SendOutcome.thrown annotationId s =
        ({ annotations := s.annotations.map (fun b =>
             if b.id = annotationId then { b with status := some "failed" } else b)
           timers := s.timers.erase annotationId }, some [a])) ∧
    (∀ (outcome : SendOutcome) (annotationId : String) (s : ToolbarState),
      autoSendFire outcome annotationId (deleteAnnotationOp annotationId s) =
        ({ annotations := (deleteAnnotationOp annotationId s).annotations
           timers := s.timers.erase annotationId }, none)) := by
  refine ⟨?_, ?_, ?_, ?_⟩
  · intro s annotationId a results res hFind hSt hHead hSucc
    simp only [autoSendFire, hFind, if_pos hSt]
    refine congrArg (fun l => (ToolbarState.mk l (s.timers.erase annotationId), some [a])) ?_
    rw [List.map_map]
    refine List.map_congr_left ?_
    intro b _
    by_cases hb : b.id = annotationId
    · simp [Function.comp, hb, hHead, hSucc]
    · simp [Function.comp, hb]
  · intro s annotationId a results res hFind hSt hHead hSucc
    simp only [autoSendFire, hFind, if_pos hSt]
    refine congrArg (fun l => (ToolbarState.mk l (s.timers.erase annotationId), some [a])) ?_
    rw [List.map_map]
    refine List.map_congr_left ?_
    intro b _
    by_cases hb : b.id = annotationId
    · simp [Function.comp, hb, hHead, hSucc]
    · simp [Function.comp, hb]
  · intro s annotationId a hFind hSt
    simp only [autoSendFire, hFind, if_pos hSt]
    refine congrArg (fun l => (ToolbarState.mk l (s.timers.erase annotationId), some [a])) ?_
    rw [List.map_map]
    refine List.map_congr_left ?_
    intro b _
    by_cases hb : b.id = annotationId
    · simp [Function.comp, hb]
    · simp [Function.comp, hb]
  · intro outcome annotationId s
    have hf := find_eq_none_after_filter_ne
      (fun (a : AnnotationRecord) => a.id) annotationId s.annotations
    cases outcome <;>
      simp only [autoSendFire, deleteAnnotationOp, hf]

/-- Witness for C1: firing the timer of the concrete draft with a
successful send result makes it pending with the server remoteId, and
firing after deletion sends nothing. -/
theorem c1_auto_send_lifecycle_witness :
    autoSendFire
        (SendOutcome.resolved [{ id := "a1", remoteId := "srv-7", success := true }])
        "a1" demoToolbar
      = ({ annotations := [{ demoDraft with
              status := some "pending", remoteId := some "srv-7" }]
           timers := [] }, some [demoDraft]) ∧
    autoSendFire SendOutcome.thrown "a1" (deleteAnnotationOp "a1" demoToolbar)
      = ({ annotations := [], timers := [] }, none) := by
  constructor
  · have h := c1_auto_send_lifecycle.1 demoToolbar "a1" demoDraft
      [{ id := "a1", remoteId := "srv-7", success := true }]
      { id := "a1", remoteId := "srv-7", success := true }
      rfl (Or.inr rfl) rfl rfl
    rw [h]
    rfl
  · have h := c1_auto_send_lifecycle.2.2.2 SendOutcome.thrown "a1" demoToolbar
    rw [h]
    rfl

/-- Claim C10: startAutoSend is idempotent per annotation id - arming an
already armed id is a no-op, arming twice equals arming once, and the
armed-timer key list never acquires a duplicate. -/
theorem c10_start_auto_send_idempotent :
    (∀ (m hs : Bool) (annotationId : String) (s : ToolbarState),
      annotationId ∈ s.timers → startAutoSend m hs annotationId s = s) ∧
    (∀ (m hs : Bool) (annotationId : String) (s : ToolbarState),
      startAutoSend m hs annotationId (startAutoSend m hs annotationId s)
        = startAutoSend m hs annotationId s) ∧
    (∀ (m hs : Bool) (annotationId : String) (s : ToolbarState),
      s.timers.Nodup → ((startAutoSend m hs annotationId s).timers).Nodup) := by
  refine ⟨?_, ?_, ?_⟩
  · intro m hs annotationId s hmem
    simp [startAutoSend, hmem]
  · intro m hs annotationId s
    by_cases hg : m = true ∧ hs = true
    · by_cases ht : annotationId ∈ s.timers
      · simp [startAutoSend, hg, ht]
      · simp [startAutoSend, hg, ht, List.mem_append]
    · simp [startAutoSend, hg]
  · intro m hs annotationId s hnd
    by_cases hg : m = true ∧ hs = true
    · by_cases ht : annotationId ∈ s.timers
      · simpa [startAutoSend, hg, ht] using hnd
      · simp [startAutoSend, hg, ht, List.nodup_append, hnd, List.disjoint_singleton]
    · simpa [startAutoSend, hg] using hnd

/-- Witness for C10: arming the demo state, whose timer for a1 is already
armed, changes nothing. -/
theorem c10_start_auto_send_idempotent_witness :
    startAutoSend true true "a1" demoToolbar = demoToolbar :=
  c10_start_auto_send_idempotent.1 true true "a1" demoToolbar (by decide)

/-- A local annotation already submitted: remoteId r1, status pending. -/
def pendingLocal : AnnotationRecord :=
  { id := "l1", remoteId := some "r1", status := some "pending" }

/-- A fetched summary for the same remote id with status approved. -/
def approvedSummary : AnnotationSummary :=
  { id := "r1", status := "approved", tokenOwner := "Alice" }

/-- Claim C2: polling reconciliation overwrites status and tokenOwner of
every local annotation whose remoteId matches a fetched summary with
differing values, firing onStatusChange once per changed annotation, and
leaves annotations without remoteId, without a matching summary, or with
equal values unchanged.  Concretely, a local pending annotation with
remoteId r1 becomes approved, with exactly one callback. -/
theorem c2_sync_reconciliation :
    (∀ (fetched : List AnnotationSummary) (a : AnnotationRecord),
      a.remoteId = none → syncOne fetched a = (a, none)) ∧
    (∀ (fetched : List AnnotationSummary) (a : AnnotationRecord) (rid : String),
      a.remoteId = some rid →
      fetched.find? (fun r => decide (r.id = rid)) = none →
      syncOne fetched a = (a, none)) ∧
    (∀ (fetched : List AnnotationSummary) (a : AnnotationRecord) (rid : String)
        (remote : AnnotationSummary),
      a.remoteId = some rid →
      fetched.find? (fun r => decide (r.id = rid)) = some remote →
      (a.status ≠ some remote.status ∨ a.tokenOwner ≠ some remote.tokenOwner) →
      syncOne fetched a =
        ({ a with status := some remote.status, tokenOwner := some remote.tokenOwner },
         some { a with status := some remote.status, tokenOwner := some remote.tokenOwner })) ∧
    (∀ (fetched : List AnnotationSummary) (a : AnnotationRecord) (rid : String)
        (remote : AnnotationSummary),
      a.remoteId = some rid →
      fetched.find? (fun r => decide (r.id = rid)) = some remote →
      a.status = some remote.status → a.tokenOwner = some remote.tokenOwner →
      syncOne fetched a = (a, none)) ∧
    (∀ (anns : List AnnotationRecord) (fetched : List AnnotationSummary),
      syncLocalAnnotations anns fetched
        = (anns.map (fun a => (syncOne fetched a).1),
           anns.filterMap (fun a => (syncOne fetched a).2))) ∧
    syncLocalAnnotations [pendingLocal] [approvedSummary]
      = ([{ pendingLocal with status := some "approved", tokenOwner := some "Alice" }],
         [{ pendingLocal with status := some "approved", tokenOwner := some "Alice" }]) := by
  refine ⟨?_, ?_, ?_, ?_, fun anns fetched => rfl, rfl⟩
  · intro fetched a h
    simp [syncOne, h]
  · intro fetched a rid h hf
    simp [syncOne, h, hf]
  · intro fetched a rid remote h hf hdiff
    have hd : a.status ≠ some remote.status ∨ a.tokenOwner ≠ some remote.tokenOwner := hdiff
    simp only [syncOne, h, hf]
    rw [if_pos hd]
  · intro fetched a rid remote h hf h1 h2
    simp [syncOne, h, hf, h1, h2]

/-- Witness for C2: reconciling the concrete pending annotation against
the approved summary rewrites both fields and reports the updated record
once. -/
theorem c2_sync_reconciliation_witness :
    syncOne [approvedSummary] pendingLocal =
      ({ pendingLocal with status := some "approved", tokenOwner := some "Alice" },
       some { pendingLocal with status := some "approved", tokenOwner := some "Alice" }) := by
  have h := c2_sync_reconciliation.2.2.1 [approvedSummary] pendingLocal "r1" approvedSummary
    rfl rfl (Or.inl (by decide))
  exact h

/-- Claim C6: persisting a non-empty annotation list under the page key
round-trips - reloading the same key yields the equal list in order;
persisting the empty list removes the key (identical to deleting it); and
an absent key loads as no annotations. -/
theorem c6_store_roundtrip :
    (∀ (path : String) (anns : List AnnotationRecord) (s : KVStore),
      anns ≠ [] → loadAnnotationsFromStore path (persistEffect path anns s) = anns) ∧
    (∀ (path : String) (s : KVStore),
      kvGet (getStorageKey path) (persistEffect path [] s) = none) ∧
    (∀ (path : String) (s : KVStore),
      persistEffect path [] s = kvRemove (getStorageKey path) s) ∧
    (∀ (path : String) (s : KVStore),
      kvGet (getStorageKey path) s = none → loadAnnotationsFromStore path s = []) := by
  refine ⟨?_, ?_, fun path s => rfl, ?_⟩
  · intro path anns s h
    have hl : anns.length > 0 := List.length_pos.mpr h
    simp [persistEffect, hl, saveAnnotations, loadAnnotationsFromStore, kvGet, kvPut,
      List.find?]
  · intro path s
    have hf := find_eq_none_after_filter_ne
      (fun (p : String × List AnnotationRecord) => p.1) (getStorageKey path) s
    simp only [persistEffect, List.length_nil, gt_iff_lt, lt_self_iff_false, if_false,
      kvRemove, kvGet]
    rw [hf]
    rfl
  · intro path s h
    simp [loadAnnotationsFromStore, h]

/-- Witness for C6: saving the one-element demo list under a concrete
path and reloading it returns the same list. -/
theorem c6_store_roundtrip_witness :
    loadAnnotationsFromStore "/home" (persistEffect "/home" [demoDraft] []) = [demoDraft] :=
  c6_store_roundtrip.1 "/home" [demoDraft] [] (List.cons_ne_nil _ _)

/-- Reconciling against an empty fetched list changes nothing and fires
no callback. -/
theorem syncOne_nil (a : AnnotationRecord) : syncOne [] a = (a, none) := by
  cases h : a.remoteId <;> simp [syncOne, h]

/-- Reconciling a whole list against an empty fetched list is the
identity with no callbacks. -/
theorem syncLocalAnnotations_nil (anns : List AnnotationRecord) :
    syncLocalAnnotations anns [] = (anns, []) := by
  simp [syncLocalAnnotations, syncOne_nil]

/-- A demo summary displayed by the review panel before a failing poll. -/
def demoSummary : AnnotationSummary := { id := "r1", status := "pending", timestamp := 5 }

/-- Counterexample to claim C7: a failed polling fetch yields the empty
list, and the review panel load replaces the displayed list with it -
with one summary previously displayed, the displayed list after the
failing tick is empty, not the prior list. -/
theorem c7_fetch_failure_counterexample :
    panelLoadDisplayed (FetchOutcome.netError "network down") = [] ∧
    panelLoadDisplayed (FetchOutcome.netError "network down") ≠ [demoSummary] := by
  refine ⟨rfl, ?_⟩
  intro h
  exact List.noConfusion h

/-- Claim C7 (amended): a failed polling fetch returns the empty summary
list; reconciling the local annotations against it leaves every local
annotation unchanged with no onStatusChange callback, but the review
panel replaces its displayed list with the empty result, clearing
whatever was shown before. -/
theorem c7_fetch_failure_behavior :
    ∀ (msg : String) (anns : List AnnotationRecord),
      syncLocalAnnotations anns (fetchAnnotationsResult (FetchOutcome.netError msg))
        = (anns, []) ∧
      panelLoadDisplayed (FetchOutcome.netError msg) = [] := by
  intro msg anns
  exact ⟨syncLocalAnnotations_nil anns, rfl⟩

/-- Claim C8: every API client operation catches a thrown network failure
and returns a plain value - the send and action operations return a
success-false result carrying the error text, the list fetch returns the
empty list, the detail fetch returns null, and the batch submit converts
a per-item throw into a success-false send result. -/
theorem c8_api_errors_caught :
    ∀ (e : String),
      submitAnnotationResult (Except.error e) = { success := false, error := some e } ∧
      approveAnnotationResult (Except.error e) = { success := false, error := some e } ∧
      rejectAnnotationResult (Except.error e) = { success := false, error := some e } ∧
      reviseAnnotationResult (Except.error e) = { success := false, error := some e } ∧
      cancelAnnotationResult (Except.error e) = { success := false, error := some e } ∧
      fetchAnnotationsResult (FetchOutcome.netError e) = [] ∧
      fetchAnnotationResult (Except.error e) = none ∧
      (∀ (annotationId : String) (items : List (String × Except String SubmitBatchData)),
        submitAnnotationsResult ((annotationId, Except.error e) :: items)
          = { id := annotationId, remoteId := "", success := false, error := some e }
            :: submitAnnotationsResult items) :=
  fun _ => ⟨rfl, rfl, rfl, rfl, rfl, rfl, rfl, fun _ _ => rfl⟩

/-- An implemented summary owned by the current token. -/
def implementedOwn : AnnotationSummary := { id := "r9", status := "implemented", isOwn := true }

/-- Counterexample to claim C9: for an implemented summary owned by the
current token, the action list is approve/edit/reject and hide is not
among the available actions. -/
theorem c9_hide_counterexample :
    getActions false implementedOwn = ["approve", "edit", "reject"] ∧
    "hide" ∉ getActions false implementedOwn := by
  refine ⟨rfl, ?_⟩
  decide

/-- Claim C9 (amended): the client-side hide action is available for
every summary except an implemented one that the current token owns or
can administer; those get exactly approve, edit (revision) and reject. -/
theorem c9_hide_availability :
    (∀ (isAdmin : Bool) (a : AnnotationSummary),
      "hide" ∈ getActions isAdmin a ↔
        ¬ (a.status = "implemented" ∧ (a.isOwn = true ∨ isAdmin = true))) ∧
    (∀ (isAdmin : Bool) (a : AnnotationSummary),
      a.status = "implemented" → (a.isOwn = true ∨ isAdmin = true) →
      getActions isAdmin a = ["approve", "edit", "reject"]) := by
  constructor
  · intro isAdmin a
    unfold getActions
    by_cases hcm : (a.isOwn || isAdmin) = true
    all_goals split_ifs with h1 h2 h3 h4 h5
    all_goals simp_all [List.mem_cons, Bool.or_eq_true]
  · intro isAdmin a h hc
    rcases hc with hc | hc <;> simp [getActions, h, hc]

/-- Witness for C9: an implemented summary not owned but viewed with an
admin token gets the approve/edit/reject action list. -/
theorem c9_hide_availability_witness :
    getActions true { id := "r10", status := "implemented" } = ["approve", "edit", "reject"] :=
  c9_hide_availability.2 true { id := "r10", status := "implemented" } rfl (Or.inr rfl)

/-- A large matched button covering (0,0)-(100,100). -/
def outerButton : DomElement :=
  { idx := 0
    tag := "BUTTON"
    rect := { left := 0, top := 0, right := 100, bottom := 100 }
    name := "Outer" }

/-- A small matched button at (10,10)-(40,40), fully inside the outer
rectangle of the outer button and a DOM child of it. -/
def innerButton : DomElement :=
  { idx := 1
    tag := "BUTTON"
    rect := { left := 10, top := 10, right := 40, bottom := 40 }
    ancestors := [0]
    name := "Inner" }

/-- Counterexample to claim C5: with two matched candidates whose
rectangles nest, the throttled highlight pass keeps the containing
rectangle and drops the contained one - the opposite of returning only
the contained candidate. -/
theorem c5_dedup_counterexample :
    highlightPass [outerButton, innerButton] 1000 800 0 0 50 50 = [outerButton.rect] ∧
    rectContains outerButton.rect innerButton.rect ∧
    innerButton.rect ∉ highlightPass [outerButton, innerButton] 1000 800 0 0 50 50 := by
  have h1 : highlightPass [outerButton, innerButton] 1000 800 0 0 50 50
      = [outerButton.rect] := by
    show List.foldl (highlightStep 1000 800 0 0 50 50) [] [outerButton, innerButton]
      = [outerButton.rect]
    rw [List.foldl_cons, List.foldl_cons, List.foldl_nil]
    have hstep1 : highlightStep 1000 800 0 0 50 50 [] outerButton = [outerButton.rect] := by
      unfold highlightStep
      rw [if_neg (by norm_num [outerButton]), if_neg (by norm_num [outerButton, Rect.width, Rect.height]),
        if_neg (by norm_num [outerButton, Rect.width, Rect.height]),
        if_pos (by norm_num [outerButton]),
        if_pos (Or.inl (by norm_num [outerButton, meaningfulTags])),
        if_neg (by simp)]
      rfl
    rw [hstep1]
    unfold highlightStep
    rw [if_neg (by norm_num [innerButton]), if_neg (by norm_num [innerButton, Rect.width, Rect.height]),
      if_neg (by norm_num [innerButton, Rect.width, Rect.height]),
      if_pos (by norm_num [innerButton]),
      if_pos (Or.inl (by norm_num [innerButton, meaningfulTags])),
      if_pos (by
        simp only [List.any_cons, List.any_nil, Bool.or_false, decide_eq_true_eq]
        norm_num [rectContains, outerButton, innerButton])]
  refine ⟨h1, by norm_num [rectContains, outerButton, innerButton], ?_⟩
  rw [h1]
  intro hmem
  rw [List.mem_singleton] at hmem
  have : (10 : ℚ) = 0 := congrArg Rect.left hmem
  norm_num at this

/-- Claim C5 (amended): in the throttled highlight pass, a candidate
whose rectangle is fully contained in an already collected rectangle is
the one discarded - the containing rectangle stays; in the final
pointer-up pass the deduplication criterion is DOM containment: no
returned element DOM-contains another matched element, so the most
specific elements are kept. -/
theorem c5_dedup_behavior :
    (∀ (ww wh l t r b : ℚ) (acc : List Rect) (el : DomElement) (r0 : Rect),
      r0 ∈ acc → rectContains r0 el.rect →
      highlightStep ww wh l t r b acc el = acc) ∧
    (∀ (els : List DomElement) (ww wh l t r b : ℚ) (el other : DomElement),
      el ∈ finalElementsOf els ww wh l t r b →
      other ∈ mouseupMatches els ww wh l t r b →
      other.idx ≠ el.idx → ¬ domContains el other) := by
  constructor
  · intro ww wh l t r b acc el r0 hr0 hcont
    unfold highlightStep
    split_ifs with h1 h2 h3 h4 h5 h6
    all_goals try rfl
    exact absurd (List.any_eq_true.mpr ⟨r0, hr0, decide_eq_true hcont⟩) h6
  · intro els ww wh l t r b el other hel hother hne
    unfold finalElementsOf at hel
    rw [List.mem_filter] at hel
    have hp := hel.2
    rw [decide_eq_true_eq] at hp
    exact fun hc => hp ⟨other, hother, hne, hc⟩

/-- Witness for C5: the highlight step on the concrete nested buttons
keeps the collected outer rectangle unchanged, discarding the contained
inner one. -/
theorem c5_dedup_behavior_witness :
    highlightStep 1000 800 0 0 50 50 [outerButton.rect] innerButton = [outerButton.rect] :=
  c5_dedup_behavior.1 1000 800 0 0 50 50 [outerButton.rect] innerButton outerButton.rect
    (List.mem_singleton.mpr rfl) (by norm_num [rectContains, outerButton, innerButton])

/-- Claim C3 (amended): a completed drag whose final element set is empty
and whose rectangle strictly exceeds 20x20 produces an annotation draft
with isMultiSelect true and element label Area selection, whose
elementPath is the region-coordinate string built from the rounded drag
top-left corner - not the multi-select sentinel. -/
theorem c3_area_annotation_behavior :
    ∀ (els : List DomElement) (dsx dsy cx cy sy ww wh : ℚ),
      finalElementsOf els ww wh (min dsx cx) (min dsy cy) (max dsx cx) (max dsy cy) = [] →
      |max dsx cx - min dsx cx| > 20 → |max dsy cy - min dsy cy| > 20 →
      handleMouseUpResult els dsx dsy cx cy sy ww wh = some
        { x := cx / ww * 100
          y := cy + sy
          clientY := cy
          element := "Area selection"
          elementPath := "region at (" ++ toString (mathRound (min dsx cx)) ++ ", "
            ++ toString (mathRound (min dsy cy)) ++ ")"
          boundingBox := some
            { x := min dsx cx
              y := min dsy cy + sy
              width := |max dsx cx - min dsx cx|
              height := |max dsy cy - min dsy cy| }
          isMultiSelect := some true } := by
  intro els dsx dsy cx cy sy ww wh hempty hw hh
  simp only [handleMouseUpResult, hempty]
  rw [if_pos ⟨hw, hh⟩]

/-- Witness for C3: a 30x30 drag over empty space from (0,0) to (30,30)
produces the area draft with the region-coordinate path. -/
theorem c3_area_annotation_behavior_witness :
    handleMouseUpResult [] 0 0 30 30 0 1000 800 = some
      { x := (30 : ℚ) / 1000 * 100
        y := (30 : ℚ) + 0
        clientY := 30
        element := "Area selection"
        elementPath := "region at (" ++ toString (mathRound (min (0 : ℚ) 30)) ++ ", "
          ++ toString (mathRound (min (0 : ℚ) 30)) ++ ")"
        boundingBox := some
          { x := min (0 : ℚ) 30
            y := min (0 : ℚ) 30 + 0
            width := |max (0 : ℚ) 30 - min (0 : ℚ) 30|
            height := |max (0 : ℚ) 30 - min (0 : ℚ) 30| }
        isMultiSelect := some true } :=
  c3_area_annotation_behavior [] 0 0 30 30 0 1000 800 rfl (by norm_num) (by norm_num)

/-- Counterexample to claim C3: the annotation draft created by an empty
30x30 drag carries the region-coordinate elementPath, not the
multi-select sentinel demanded by the claim. -/
theorem c3_sentinel_counterexample :
    handleMouseUpResult [] 0 0 30 30 0 1000 800 = some
      { x := 3
        y := 30
        clientY := 30
        element := "Area selection"
        elementPath := "region at (0, 0)"
        boundingBox := some { x := 0, y := 0, width := 30, height := 30 }
        isMultiSelect := some true } ∧
    "region at (0, 0)" ≠ "multi-select" := by
  have hmin : min (0 : ℚ) 30 = 0 := by norm_num
  have hmax : max (0 : ℚ) 30 = 30 := by norm_num
  have hempty : finalElementsOf [] 1000 800 0 0 30 30 = [] := rfl
  have hmr : mathRound 0 = 0 := by
    unfold mathRound
    rw [Int.floor_eq_zero_iff]
    constructor <;> norm_num
  refine ⟨?_, by decide⟩
  simp only [handleMouseUpResult, hmin, hmax, hempty]
  rw [if_pos (by norm_num : |(30 : ℚ) - 0| > 20 ∧ |(30 : ℚ) - 0| > 20)]
  simp only [hmr, Option.some.injEq, PendingAnnotationData.mk.injEq, BoundingBox.mk.injEq]
  norm_num
  rfl
